import Mathlib

/-!
Verification of the admission-control core of `relay-api`
(`services/api-gateway/src/rate-limiter.ts`).

The development shallowly embeds the rate limiter: the Lua script that the
`TokenBucket.consume` method evaluates against Redis, the TypeScript wrapper
around it (including its catch-all fail-open branch), the route-configuration
registry `DEFAULT_RATE_LIMITS`, the route matcher, and the middleware loop
that executes the per-user / per-IP checks and populates the rate-limit
response headers.  Numbers that the source keeps as JavaScript / Lua floats
are modelled as rationals; `Math.floor` and `math.ceil` become the integer
floor and ceiling on the rationals.
-/

/-- Mirrors the `RateLimitConfig` interface (rate-limiter.ts lines 33-37). -/
structure RateLimitConfig where
  maxTokens : ℚ
  refillRate : ℚ
  windowSeconds : ℚ
deriving DecidableEq

/-- Mirrors the `EndpointRateLimits` interface (lines 39-42): an optional
per-user and an optional per-IP configuration. -/
structure EndpointRateLimits where
  perUser : Option RateLimitConfig
  perIP : Option RateLimitConfig
deriving DecidableEq

/-- The bucket record Redis stores under a `rate_limit:` key: the hash fields
`tokens` and `lastRefill` (lines 85 and 116). -/
structure BucketState where
  tokens : ℚ
  lastRefill : ℚ
deriving DecidableEq

/-- The triple `{allowed, tokens, retry_after}` that the Lua script returns
(line 147).  `allowed` is the integer 1 or 0, `retryAfter` is the result of
`math.ceil`, hence an integer. -/
structure LuaReply where
  allowed : ℤ
  tokens : ℚ
  retryAfter : ℤ
deriving DecidableEq

/-- The verdict the TypeScript `consume` returns to the middleware
(lines 97-101): `allowed`, the floored `tokensRemaining`, and the optional
`retryAfterSeconds`. -/
structure Verdict where
  allowed : Bool
  tokensRemaining : ℤ
  retryAfterSeconds : Option ℤ
deriving DecidableEq

/-- The post-refill token count of lines 116-129 of the Lua script: read the
bucket (initialising `tokens = max_tokens`, `last_refill = now` when the key
is absent), let `elapsed = now - last_refill` — the source applies NO clamp
to `elapsed` — and set `tokens = math.min(max_tokens, tokens + elapsed *
refill_rate)`. -/
def refilledTokens (maxTokens refillRate now : ℚ) (bucket : Option BucketState) : ℚ :=
  let tokens := match bucket with
    | some b => b.tokens
    | none => maxTokens
  let lastRefill := match bucket with
    | some b => b.lastRefill
    | none => now
  let elapsed := now - lastRefill
  min maxTokens (tokens + elapsed * refillRate)

/-- The whole Lua script (lines 108-148): refill, then the decision of lines
131-141, then the write-back `HMSET key tokens lastRefill now` and
`EXPIRE key window_seconds` of lines 143-145.  Returns the script reply
together with the bucket state written back and the expiry that was set;
the script always writes, in both branches. -/
def luaScript (maxTokens refillRate now windowSeconds : ℚ)
    (bucket : Option BucketState) : LuaReply × BucketState × ℚ :=
  let tokens := refilledTokens maxTokens refillRate now bucket
  if 1 ≤ tokens then
    (⟨1, tokens - 1, 0⟩, ⟨tokens - 1, now⟩, windowSeconds)
  else
    (⟨0, tokens, ⌈(1 - tokens) / refillRate⌉⟩, ⟨tokens, now⟩, windowSeconds)

/-- The successful path of `TokenBucket.consume` (lines 105-163): evaluate the
Lua script and convert its reply into a verdict, flooring the token count and
turning a non-positive `retry_after` into an absent `retryAfterSeconds`
(lines 157-163). -/
def consumeOk (config : RateLimitConfig) (now : ℚ) (bucket : Option BucketState) :
    Verdict × BucketState × ℚ :=
  let r := luaScript config.maxTokens config.refillRate now config.windowSeconds bucket
  (⟨r.1.allowed == 1, ⌊r.1.tokens⌋,
    if 0 < r.1.retryAfter then some r.1.retryAfter else none⟩,
   r.2)

/-- The outcome of the one atomic store round-trip that `consume` performs:
either the script ran against the current bucket (possibly absent), or the
store call failed (network / timeout). -/
inductive StoreOutcome where
  | ok : Option BucketState → StoreOutcome
  | storeFailure : StoreOutcome
deriving DecidableEq

/-- `TokenBucket.consume` in full (lines 94-169): on a successful round-trip
the converted script verdict together with the written-back record; on a
store failure the catch branch of lines 164-168 — it returns the fabricated
fail-open verdict `{allowed: true, tokensRemaining: -1}` to its caller and
writes nothing.  The catch swallows the error: no failure is propagated and
no retry is attempted. -/
def consume (config : RateLimitConfig) (now : ℚ) :
    StoreOutcome → Verdict × Option (BucketState × ℚ)
  | .ok bucket =>
    let r := consumeOk config now bucket
    (r.1, some r.2)
  | .storeFailure => (⟨true, -1, none⟩, none)

/-- Runs a sequence of consume calls (store reachable throughout) against one
bucket, threading the written-back state; returns the final stored state and
the verdicts in call order.  Each call is one atomic script evaluation, so an
interleaving of concurrent calls is exactly a sequence of such steps. -/
def runConsumes (config : RateLimitConfig) :
    List ℚ → Option BucketState → Option BucketState × List Verdict
  | [], bucket => (bucket, [])
  | now :: rest, bucket =>
    let r := consumeOk config now bucket
    let t := runConsumes config rest (some r.2.1)
    (t.1, r.1 :: t.2)

/-- Number of allowed verdicts in a run. -/
def countAllowed (l : List Verdict) : ℕ :=
  (l.filter fun v => v.allowed).length

/-- Number of denied verdicts in a run. -/
def countDenied (l : List Verdict) : ℕ :=
  (l.filter fun v => !v.allowed).length

/-- The `/api/auth/login` per-IP configuration (line 48). -/
def loginIPConfig : RateLimitConfig := ⟨5, 1, 300⟩

/-- The `/api/auth/register` per-IP configuration (line 51). -/
def registerIPConfig : RateLimitConfig := ⟨3, 1, 3600⟩

/-- The `/api/posts` per-user configuration (line 56). -/
def postsUserConfig : RateLimitConfig := ⟨10, 2, 60⟩

/-- The `/api/posts` per-IP configuration (line 57). -/
def postsIPConfig : RateLimitConfig := ⟨20, 5, 60⟩

/-- The `/api/posts/:postId/upvote` per-user configuration (line 62). -/
def upvoteUserConfig : RateLimitConfig := ⟨30, 10, 60⟩

/-- The `default` entry (lines 66-69). -/
def defaultLimits : EndpointRateLimits := ⟨some ⟨100, 50, 60⟩, some ⟨200, 100, 60⟩⟩

/-- The registry `DEFAULT_RATE_LIMITS` (lines 45-70) as an association list in
insertion order, matching the iteration order of `Object.entries` over the
string-keyed object. -/
def DEFAULT_RATE_LIMITS : List (String × EndpointRateLimits) :=
  [("/api/auth/login", ⟨none, some loginIPConfig⟩),
   ("/api/auth/register", ⟨none, some registerIPConfig⟩),
   ("/api/posts", ⟨some postsUserConfig, some postsIPConfig⟩),
   ("/api/posts/:postId/upvote", ⟨some upvoteUserConfig, none⟩),
   ("default", defaultLimits)]

/-- JavaScript `string.split("/")` on the character sequence of the string:
splits at every `/`, keeping empty segments, so that `"/api/posts"` becomes
`["", "api", "posts"]` exactly as in the source. -/
def splitSlash : List Char → List (List Char)
  | [] => [[]]
  | c :: rest =>
    let r := splitSlash rest
    if c = '/' then
      [] :: r
    else
      match r with
      | [] => [[c]]
      | h :: t => (c :: h) :: t

/-- JavaScript `segment.startsWith(":")`: the segment begins with the
character `:`. -/
def startsWithColon : List Char → Bool
  | [] => false
  | c :: _ => c == ':'

/-- `matchRoute` (lines 214-225): split both paths on `/`, require equal
segment counts, and require every pattern segment to either start with `:`
or equal the actual segment at the same position. -/
def matchRoute (actualPath pattern : String) : Bool :=
  let actualParts := splitSlash actualPath.toList
  let patternParts := splitSlash pattern.toList
  if actualParts.length ≠ patternParts.length then
    false
  else
    (patternParts.zip actualParts).all fun pa => startsWithColon pa.1 || pa.1 == pa.2

/-- `getEndpointConfig` (lines 193-208): first an exact key lookup, then the
first non-`default` registry entry whose pattern matches, else the `default`
entry. -/
def getEndpointConfig (path : String) : EndpointRateLimits :=
  match DEFAULT_RATE_LIMITS.find? fun e => e.1 == path with
  | some e => e.2
  | none =>
    match DEFAULT_RATE_LIMITS.find? fun e => e.1 != "default" && matchRoute path e.1 with
    | some e => e.2
    | none => defaultLimits

/-- One entry of the `checks` array that the middleware builds
(lines 263-285): the bucket identifier and the configuration the check
runs under. -/
structure CheckSpec where
  identifier : String
  config : RateLimitConfig
deriving DecidableEq

/-- The observable outcome of the middleware loop (lines 293-357): whether the
request proceeds to `next()`, the final values of the `X-RateLimit-Limit` and
`X-RateLimit-Remaining` headers (None when never set), and the retry hint of
a 429 response. -/
structure MiddlewareOutcome where
  allowed : Bool
  headerLimit : Option ℚ
  headerRemaining : Option ℤ
  retryAfter : Option ℤ
deriving DecidableEq

/-- Reading a bucket record from the store, keyed by identifier. -/
def storeRead (store : List (String × BucketState)) (key : String) :
    Option BucketState :=
  (store.find? fun e => e.1 == key).map fun e => e.2

/-- Writing a bucket record back to the store under its key. -/
def storeWrite (store : List (String × BucketState)) (key : String)
    (b : BucketState) : List (String × BucketState) :=
  (key, b) :: store.filter fun e => e.1 != key

/-- The check loop of `createRateLimitMiddleware` (lines 293-357).  For each
check in order it consumes from that bucket; on a denial it stops and answers
429 with headers `X-RateLimit-Limit = maxTokens` of the failing check and
`X-RateLimit-Remaining = 0` plus the retry hint (lines 331-347); on success
it overwrites both info headers with the values of the CURRENT check
(lines 350-352) and continues, so after a fully allowed run the headers hold
the pair of whichever check executed last. -/
def runChecks (now : ℚ) :
    List CheckSpec → List (String × BucketState) → Option ℚ → Option ℤ →
      MiddlewareOutcome × List (String × BucketState)
  | [], store, hLimit, hRemaining => (⟨true, hLimit, hRemaining, none⟩, store)
  | c :: rest, store, _, _ =>
    let r := consumeOk c.config now (storeRead store c.identifier)
    let store1 := storeWrite store c.identifier r.2.1
    if r.1.allowed then
      runChecks now rest store1 (some c.config.maxTokens) (some r.1.tokensRemaining)
    else
      (⟨false, some c.config.maxTokens, some 0, r.1.retryAfterSeconds⟩, store1)

/-- Lines 256-290 of the middleware: resolve the endpoint configuration and
build the checks array — a per-user check iff a user id was extracted AND
`perUser` is configured, then a per-IP check iff `perIP` is configured, with
the identifiers `user:<id>:<path>` and `ip:<ip>:<path>`. -/
def buildChecks (path : String) (userId : Option String) (clientIP : String) :
    List CheckSpec :=
  let config := getEndpointConfig path
  (match userId, config.perUser with
   | some uid, some c => [⟨"user:" ++ uid ++ ":" ++ path, c⟩]
   | _, _ => []) ++
  (match config.perIP with
   | some c => [⟨"ip:" ++ clientIP ++ ":" ++ path, c⟩]
   | _ => [])

lemma refilledTokens_none (maxTokens refillRate now : ℚ) :
    refilledTokens maxTokens refillRate now none = maxTokens := by
  simp [refilledTokens]

lemma refilledTokens_same_time (maxTokens refillRate t0 q : ℚ)
    (hq : q ≤ maxTokens) :
    refilledTokens maxTokens refillRate t0 (some ⟨q, t0⟩) = q := by
  simp [refilledTokens, min_eq_right hq]

lemma consumeOk_written_state (config : RateLimitConfig) (now : ℚ)
    (bucket : Option BucketState) :
    (consumeOk config now bucket).2.1 =
      ⟨if 1 ≤ refilledTokens config.maxTokens config.refillRate now bucket then
          refilledTokens config.maxTokens config.refillRate now bucket - 1
        else
          refilledTokens config.maxTokens config.refillRate now bucket, now⟩ := by
  simp only [consumeOk, luaScript]
  split <;> simp_all

lemma consumeOk_ttl (config : RateLimitConfig) (now : ℚ)
    (bucket : Option BucketState) :
    (consumeOk config now bucket).2.2 = config.windowSeconds := by
  simp only [consumeOk, luaScript]
  split <;> simp_all

lemma consumeOk_allowed_eq (config : RateLimitConfig) (now : ℚ)
    (bucket : Option BucketState) :
    (consumeOk config now bucket).1.allowed =
      decide (1 ≤ refilledTokens config.maxTokens config.refillRate now bucket) := by
  simp only [consumeOk, luaScript]
  split <;> simp_all

/-- Claim C4: with config `{maxTokens 5, refillRate 1, windowSeconds 300}`
(the `/api/auth/login` per-IP entry) and a fresh bucket, five consumes at
`t = 0` are allowed with `tokensRemaining` 4, 3, 2, 1, 0 in order, the sixth
consume at `t = 0` is denied with `retryAfterSeconds = 1`, and a consume at
`t = 1` on the resulting bucket is allowed. -/
theorem login_scenario_five_then_deny_then_refill :
    (runConsumes loginIPConfig [0, 0, 0, 0, 0, 0] none).2 =
      [⟨true, 4, none⟩, ⟨true, 3, none⟩, ⟨true, 2, none⟩,
       ⟨true, 1, none⟩, ⟨true, 0, none⟩, ⟨false, 0, some 1⟩] ∧
    (consumeOk loginIPConfig 1
        (runConsumes loginIPConfig [0, 0, 0, 0, 0, 0] none).1).1.allowed = true := by
  norm_num [runConsumes, consumeOk, luaScript, refilledTokens, loginIPConfig,
    Int.ceil_eq_iff]

/-- Claim C5: after the refill step, if at least one token is present the
call subtracts one token, is allowed, reports the floor of the decremented
fractional count and no retry hint (a `retry_after` of 0 is normalized to
absent); otherwise it subtracts nothing, is denied, reports the floor of the
fractional count and `retryAfterSeconds = ceil((1 - tokens) / refillRate)`,
which is positive and hence survives the normalization. -/
theorem consume_decision (config : RateLimitConfig) (now : ℚ)
    (bucket : Option BucketState) (hrate : 0 < config.refillRate) :
    (1 ≤ refilledTokens config.maxTokens config.refillRate now bucket →
      (consumeOk config now bucket).1 =
        ⟨true, ⌊refilledTokens config.maxTokens config.refillRate now bucket - 1⌋,
         none⟩) ∧
    (refilledTokens config.maxTokens config.refillRate now bucket < 1 →
      (consumeOk config now bucket).1 =
        ⟨false, ⌊refilledTokens config.maxTokens config.refillRate now bucket⌋,
         some ⌈(1 - refilledTokens config.maxTokens config.refillRate now bucket) /
                config.refillRate⌉⟩) := by
  constructor
  · intro h
    simp [consumeOk, luaScript, h]
  · intro h
    have hpos : 0 < ⌈(1 - refilledTokens config.maxTokens config.refillRate now bucket) /
        config.refillRate⌉ := by
      apply Int.ceil_pos.mpr
      apply div_pos _ hrate
      linarith
    simp [consumeOk, luaScript, not_le.mpr h, hpos]

/-- Witness for C5: the first consume on a fresh login bucket is the allowed
branch of the decision rule and yields the verdict `(true, 4, none)`. -/
theorem consume_decision_witness :
    (consumeOk loginIPConfig 0 none).1 = ⟨true, 4, none⟩ := by
  have h := (consume_decision loginIPConfig 0 none (by norm_num [loginIPConfig])).1
    (by norm_num [refilledTokens, loginIPConfig])
  rw [h]
  norm_num [refilledTokens, loginIPConfig]

/-- Claim C6 counterexample: when the store round-trip fails, `consume` does
NOT signal the failure upward — the catch branch of lines 164-168 swallows
the error and returns the fabricated fail-open verdict
`{allowed: true, tokensRemaining: -1}` to its caller. -/
theorem store_failure_fabricated_verdict_cex :
    consume loginIPConfig 0 .storeFailure = (⟨true, -1, none⟩, none) := rfl

/-- Claim C6 (amended): on a store failure `consume` performs no retry (the
single round-trip is the only store interaction) and, instead of propagating
the error, it logs it and returns the fail-open verdict
`{allowed: true, tokensRemaining: -1}` with no retry hint and no write. -/
theorem consume_swallows_store_failure (config : RateLimitConfig) (now : ℚ) :
    consume config now .storeFailure = (⟨true, -1, none⟩, none) := rfl

/-- Claim C7 counterexample: no route can be configured fail-closed — for
every entry of the registry, including the sensitive authentication routes,
every configured check during a store outage yields `allowed = true`; an
`EndpointRateLimits` carries no degradation-policy field at all. -/
theorem no_fail_closed_route_cex :
    (DEFAULT_RATE_LIMITS.all fun e =>
      ((e.2.perUser.map fun c => (consume c 0 .storeFailure).1.allowed).getD true) &&
      ((e.2.perIP.map fun c => (consume c 0 .storeFailure).1.allowed).getD true)) =
      true := by decide

/-- Claim C7 (amended): during store unavailability every check, for every
configuration and hence every route, yields the fail-open result
`allowed = true` with the sentinel `tokensRemaining = -1` and no retry hint;
the code implements no fail-closed mode and exposes no per-route degradation
policy. -/
theorem degradation_always_fail_open (config : RateLimitConfig) (now : ℚ) :
    (consume config now .storeFailure).1.allowed = true ∧
    (consume config now .storeFailure).1.tokensRemaining = -1 ∧
    (consume config now .storeFailure).1.retryAfterSeconds = none :=
  ⟨rfl, rfl, rfl⟩

/-- Claim C3 counterexample: the Lua script computes `elapsed = now -
last_refill` with NO clamp (line 127).  A consume whose `now` is 0 against a
bucket `{tokens = 4, lastRefill = 10}` under the login config applies a
negative refill of -10 and writes `tokens = -6` back: the call removed
tokens, contradicting the claimed clamping. -/
theorem clamp_missing_cex :
    (consumeOk loginIPConfig 0 (some ⟨4, 10⟩)).2.1.tokens = -6 ∧ ((-6 : ℚ) < 4) := by
  norm_num [consumeOk, luaScript, refilledTokens, loginIPConfig]

/-- Claim C3 (amended): the elapsed time used for refill is `now -
lastRefill` WITHOUT any clamping to 0, so a consume whose `now` is earlier
than the stored `lastRefill` applies a negative refill and strictly removes
tokens from the bucket. -/
theorem no_clamp_negative_refill (config : RateLimitConfig) (now : ℚ)
    (b : BucketState) (hrate : 0 < config.refillRate)
    (hskew : now < b.lastRefill) :
    (consumeOk config now (some b)).2.1.tokens < b.tokens := by
  have ht : refilledTokens config.maxTokens config.refillRate now (some b) =
      min config.maxTokens (b.tokens + (now - b.lastRefill) * config.refillRate) := rfl
  have hneg : b.tokens + (now - b.lastRefill) * config.refillRate < b.tokens := by
    nlinarith
  have hlt : refilledTokens config.maxTokens config.refillRate now (some b) < b.tokens := by
    rw [ht]
    exact lt_of_le_of_lt (min_le_right _ _) hneg
  rw [consumeOk_written_state]
  dsimp only
  split
  · linarith
  · exact hlt

/-- Witness for C3 (amended): at the concrete skewed input of the
counterexample, the theorem applies and the stored tokens drop below 4. -/
theorem no_clamp_negative_refill_witness :
    (consumeOk loginIPConfig 0 (some ⟨4, 10⟩)).2.1.tokens < 4 :=
  no_clamp_negative_refill loginIPConfig 0 ⟨4, 10⟩
    (by norm_num [loginIPConfig]) (by norm_num)

/-- Claim C10: a denied consume (store reachable) subtracts nothing — the
persisted tokens equal `min(maxTokens, oldTokens + elapsed * refillRate)`
exactly — yet it still mutates the record: `lastRefill` is set to the `now`
of the call and the expiry of the record is refreshed to `windowSeconds`
(the HMSET and EXPIRE of lines 144-145 run in both branches), so a denied
consume is never read-only. -/
theorem denied_consume_frame (config : RateLimitConfig) (now : ℚ)
    (b : BucketState)
    (hdenied : min config.maxTokens
      (b.tokens + (now - b.lastRefill) * config.refillRate) < 1) :
    (consumeOk config now (some b)).1.allowed = false ∧
    (consumeOk config now (some b)).2.1.tokens =
      min config.maxTokens (b.tokens + (now - b.lastRefill) * config.refillRate) ∧
    (consumeOk config now (some b)).2.1.lastRefill = now ∧
    (consumeOk config now (some b)).2.2 = config.windowSeconds := by
  have ht : refilledTokens config.maxTokens config.refillRate now (some b) =
      min config.maxTokens (b.tokens + (now - b.lastRefill) * config.refillRate) := rfl
  refine ⟨?_, ?_, ?_, consumeOk_ttl config now (some b)⟩
  · rw [consumeOk_allowed_eq, ht]
    simp [not_le.mpr hdenied]
  · rw [consumeOk_written_state]
    dsimp only
    rw [ht, if_neg (not_le.mpr hdenied)]
  · rw [consumeOk_written_state]

/-- Witness for C10: a consume on an empty login bucket at `now = 0` is
denied, persists tokens `min(5, 0 + 0*1) = 0`, sets `lastRefill` to 0 and
refreshes the expiry to 300. -/
theorem denied_consume_frame_witness :
    (consumeOk loginIPConfig 0 (some ⟨0, 0⟩)).1.allowed = false ∧
    (consumeOk loginIPConfig 0 (some ⟨0, 0⟩)).2.1.tokens =
      min loginIPConfig.maxTokens
        ((0 : ℚ) + ((0 : ℚ) - 0) * loginIPConfig.refillRate) ∧
    (consumeOk loginIPConfig 0 (some ⟨0, 0⟩)).2.1.lastRefill = 0 ∧
    (consumeOk loginIPConfig 0 (some ⟨0, 0⟩)).2.2 = loginIPConfig.windowSeconds :=
  denied_consume_frame loginIPConfig 0 ⟨0, 0⟩ (by norm_num [loginIPConfig])

lemma refilledTokens_bounds (maxTokens refillRate now : ℚ)
    (bucket : Option BucketState) (hmax : 0 < maxTokens) (hrate : 0 < refillRate)
    (hb : ∀ b, bucket = some b → 0 ≤ b.tokens ∧ b.lastRefill ≤ now) :
    0 ≤ refilledTokens maxTokens refillRate now bucket ∧
      refilledTokens maxTokens refillRate now bucket ≤ maxTokens := by
  refine ⟨?_, min_le_left _ _⟩
  cases bucket with
  | none =>
    rw [refilledTokens_none]
    exact le_of_lt hmax
  | some b =>
    obtain ⟨ht, hlr⟩ := hb b rfl
    have helapsed : 0 ≤ (now - b.lastRefill) * refillRate := by
      apply mul_nonneg _ (le_of_lt hrate)
      linarith
    apply le_min (le_of_lt hmax)
    simp only [refilledTokens]
    linarith

lemma consumeOk_state_bounds (config : RateLimitConfig) (now : ℚ)
    (bucket : Option BucketState) (hmax : 0 < config.maxTokens)
    (hrate : 0 < config.refillRate)
    (hb : ∀ b, bucket = some b → 0 ≤ b.tokens ∧ b.lastRefill ≤ now) :
    0 ≤ (consumeOk config now bucket).2.1.tokens ∧
      (consumeOk config now bucket).2.1.tokens ≤ config.maxTokens := by
  obtain ⟨h0, h1⟩ := refilledTokens_bounds config.maxTokens config.refillRate now
    bucket hmax hrate hb
  rw [consumeOk_written_state]
  dsimp only
  split
  · constructor <;> linarith
  · exact ⟨h0, h1⟩

lemma runConsumes_bounds_aux (config : RateLimitConfig)
    (hmax : 0 < config.maxTokens) (hrate : 0 < config.refillRate) :
    ∀ (nows : List ℚ) (bucket : Option BucketState),
      nows.Chain' (· ≤ ·) →
      (∀ b, bucket = some b → 0 ≤ b.tokens ∧ b.tokens ≤ config.maxTokens ∧
        ∀ t, nows.head? = some t → b.lastRefill ≤ t) →
      ∀ b, (runConsumes config nows bucket).1 = some b →
        0 ≤ b.tokens ∧ b.tokens ≤ config.maxTokens := by
  intro nows
  induction nows with
  | nil =>
    intro bucket _ hb b hfin
    simp only [runConsumes] at hfin
    exact ⟨(hb b hfin).1, (hb b hfin).2.1⟩
  | cons now rest ih =>
    intro bucket hchain hb b hfin
    simp only [runConsumes] at hfin
    have hstep : ∀ b0, bucket = some b0 → 0 ≤ b0.tokens ∧ b0.lastRefill ≤ now := by
      intro b0 h0
      exact ⟨(hb b0 h0).1, (hb b0 h0).2.2 now rfl⟩
    obtain ⟨hc1, hc2⟩ := List.chain'_cons'.mp hchain
    apply ih (some ((consumeOk config now bucket).2.1)) hc2 _ b hfin
    intro b1 h1
    obtain ⟨hlo, hhi⟩ := consumeOk_state_bounds config now bucket hmax hrate hstep
    injection h1 with h1
    subst h1
    refine ⟨hlo, hhi, ?_⟩
    intro t ht
    have hlr : (consumeOk config now bucket).2.1.lastRefill = now := by
      rw [consumeOk_written_state]
    rw [hlr]
    apply hc1
    rw [ht]
    rfl

/-- Claim C1 (amended): for every configuration with `maxTokens > 0` and
`refillRate > 0` and every sequence of consume calls on one bucket whose
`now` timestamps are non-decreasing, the stored `tokens` value stays in the
closed interval `[0, maxTokens]` — the `min` keeps it from exceeding
`maxTokens` and the decrement only fires when at least one token is present.
The monotonicity hypothesis is forced: the code does not clamp `elapsed`, so
a call whose `now` precedes the stored `lastRefill` can drive the stored
value negative (see the counterexample). -/
theorem stored_tokens_bounded (config : RateLimitConfig)
    (hmax : 0 < config.maxTokens) (hrate : 0 < config.refillRate)
    (nows : List ℚ) (hmono : nows.Chain' (· ≤ ·)) :
    ∀ b, (runConsumes config nows none).1 = some b →
      0 ≤ b.tokens ∧ b.tokens ≤ config.maxTokens := by
  apply runConsumes_bounds_aux config hmax hrate nows none hmono
  intro b hb
  cases hb

/-- Witness for C1 (amended): running the login bucket through the
non-decreasing timestamps 0, 0, 1 ends with stored tokens 3, which the
theorem confirms to lie in `[0, 5]`. -/
theorem stored_tokens_bounded_witness :
    0 ≤ (3 : ℚ) ∧ (3 : ℚ) ≤ loginIPConfig.maxTokens :=
  stored_tokens_bounded loginIPConfig (by norm_num [loginIPConfig])
    (by norm_num [loginIPConfig]) [0, 0, 1]
    (by norm_num [List.chain'_cons, List.chain'_singleton]) ⟨3, 1⟩
    (by norm_num [runConsumes, consumeOk, luaScript, refilledTokens, loginIPConfig])

/-- Claim C1 counterexample: the claim quantifies over ALL `now` timestamps,
and it fails there — with the login config (`maxTokens = 5 > 0`,
`refillRate = 1 > 0`) a fresh bucket consumed at `now = 10` and then at
`now = 0` ends with stored `tokens = -6 < 0`: boundedness is violated when
the timestamps go backwards. -/
theorem stored_tokens_negative_cex :
    0 < loginIPConfig.maxTokens ∧ 0 < loginIPConfig.refillRate ∧
    (runConsumes loginIPConfig [10, 0] none).1 = some ⟨-6, 0⟩ ∧ ((-6 : ℚ) < 0) := by
  norm_num [runConsumes, consumeOk, luaScript, refilledTokens, loginIPConfig]

lemma runConsumes_cons_snd (config : RateLimitConfig) (now : ℚ) (rest : List ℚ)
    (bucket : Option BucketState) :
    (runConsumes config (now :: rest) bucket).2 =
      (consumeOk config now bucket).1 ::
        (runConsumes config rest (some (consumeOk config now bucket).2.1)).2 := rfl

lemma runConsumes_length (config : RateLimitConfig) :
    ∀ (nows : List ℚ) (bucket : Option BucketState),
      (runConsumes config nows bucket).2.length = nows.length := by
  intro nows
  induction nows with
  | nil => intro bucket; rfl
  | cons now rest ih =>
    intro bucket
    rw [runConsumes_cons_snd, List.length_cons, ih]
    rfl

lemma countAllowed_cons (v : Verdict) (l : List Verdict) :
    countAllowed (v :: l) = (if v.allowed then 1 else 0) + countAllowed l := by
  simp only [countAllowed, List.filter_cons]
  cases h : v.allowed <;> simp [h] <;> try omega

lemma countDenied_cons (v : Verdict) (l : List Verdict) :
    countDenied (v :: l) = (if v.allowed then 0 else 1) + countDenied l := by
  simp only [countDenied, List.filter_cons]
  cases h : v.allowed <;> simp [h] <;> try omega

lemma countAllowed_add_countDenied (l : List Verdict) :
    countAllowed l + countDenied l = l.length := by
  induction l with
  | nil => rfl
  | cons v t ih =>
    rw [countAllowed_cons, countDenied_cons, List.length_cons]
    cases h : v.allowed <;> simp [h] <;> try omega

lemma consumeOk_same_time_nat (config : RateLimitConfig) (M : ℕ)
    (hmax : config.maxTokens = (M : ℚ)) (t0 : ℚ) (j : ℕ) (hj : j ≤ M) :
    (consumeOk config t0 (some ⟨(j : ℚ), t0⟩)).1.allowed = decide (1 ≤ j) ∧
    (consumeOk config t0 (some ⟨(j : ℚ), t0⟩)).2.1 = ⟨((j - 1 : ℕ) : ℚ), t0⟩ := by
  have hq : (j : ℚ) ≤ config.maxTokens := by
    rw [hmax]
    exact_mod_cast hj
  have ht := refilledTokens_same_time config.maxTokens config.refillRate t0 (j : ℚ) hq
  constructor
  · rw [consumeOk_allowed_eq, ht]
    simp only [decide_eq_decide]
    exact_mod_cast Iff.rfl
  · rw [consumeOk_written_state]
    rw [ht]
    by_cases h1 : 1 ≤ j
    · rw [if_pos (by exact_mod_cast h1)]
      rw [Nat.cast_sub h1, Nat.cast_one]
    · have hj0 : j = 0 := by omega
      subst hj0
      norm_num

lemma consumeOk_fresh (config : RateLimitConfig) (M : ℕ) (hM : 0 < M)
    (hmax : config.maxTokens = (M : ℚ)) (t0 : ℚ) :
    (consumeOk config t0 none).1.allowed = true ∧
    (consumeOk config t0 none).2.1 = ⟨((M - 1 : ℕ) : ℚ), t0⟩ := by
  have ht : refilledTokens config.maxTokens config.refillRate t0 none = (M : ℚ) := by
    rw [refilledTokens_none, hmax]
  constructor
  · rw [consumeOk_allowed_eq, ht]
    simp [Nat.one_le_cast.mpr hM]
  · rw [consumeOk_written_state]
    rw [ht, if_pos (by exact_mod_cast hM)]
    rw [Nat.cast_sub hM, Nat.cast_one]

lemma countAllowed_replicate (config : RateLimitConfig) (M : ℕ)
    (hmax : config.maxTokens = (M : ℚ)) (t0 : ℚ) :
    ∀ (n : ℕ) (j : ℕ), j ≤ M →
      countAllowed (runConsumes config (List.replicate n t0) (some ⟨(j : ℚ), t0⟩)).2 =
        min n j := by
  intro n
  induction n with
  | zero =>
    intro j hj
    simp [runConsumes, countAllowed]
  | succ n ih =>
    intro j hj
    obtain ⟨ha, hs⟩ := consumeOk_same_time_nat config M hmax t0 j hj
    rw [List.replicate_succ, runConsumes_cons_snd, countAllowed_cons, ha, hs,
      ih (j - 1) (by omega)]
    by_cases h1 : 1 ≤ j
    · simp only [decide_eq_true_eq, if_pos h1]
      omega
    · have hj0 : j = 0 := by omega
      subst hj0
      simp

/-- Claim C2: with an integer capacity `M > 0`, running `M + k` consume
calls (`k > 0`) that all carry the same timestamp — any interleaving of
`M + k` concurrent calls is some sequence of atomic script executions, and
every such sequence is a permutation of `M + k` identical steps — against a
fresh bucket yields exactly `M` allowed and exactly `k` denied verdicts.
The atomicity is the Lua-script round-trip of the source: each step reads,
decides and writes in one indivisible store operation. -/
theorem concurrent_quota (config : RateLimitConfig) (M k : ℕ) (t0 : ℚ)
    (hM : 0 < M) (hk : 0 < k) (hmax : config.maxTokens = (M : ℚ))
    (nows : List ℚ) (hperm : nows.Perm (List.replicate (M + k) t0)) :
    countAllowed (runConsumes config nows none).2 = M ∧
    countDenied (runConsumes config nows none).2 = k := by
  have hnows : nows = List.replicate (M + k) t0 := by
    apply List.eq_replicate_iff.mpr
    constructor
    · simpa using hperm.length_eq
    · intro b hb
      exact List.eq_of_mem_replicate (hperm.subset hb)
  subst hnows
  have hA : countAllowed (runConsumes config (List.replicate (M + k) t0) none).2 = M := by
    obtain ⟨m, hm⟩ : ∃ m, M + k = m + 1 := ⟨M + k - 1, by omega⟩
    obtain ⟨ha, hs⟩ := consumeOk_fresh config M hM hmax t0
    rw [hm, List.replicate_succ, runConsumes_cons_snd, countAllowed_cons, ha, hs,
      countAllowed_replicate config M hmax t0 m (M - 1) (by omega)]
    simp only [if_pos]
    omega
  have hlen : (runConsumes config (List.replicate (M + k) t0) none).2.length = M + k := by
    rw [runConsumes_length]
    simp
  have hsum := countAllowed_add_countDenied
    (runConsumes config (List.replicate (M + k) t0) none).2
  exact ⟨hA, by omega⟩

/-- Witness for C2: the register config has capacity 3; four consume calls
at `t = 0` on a fresh bucket give exactly 3 allowed and 1 denied. -/
theorem concurrent_quota_witness :
    countAllowed (runConsumes registerIPConfig [0, 0, 0, 0] none).2 = 3 ∧
    countDenied (runConsumes registerIPConfig [0, 0, 0, 0] none).2 = 1 :=
  concurrent_quota registerIPConfig 3 1 0 (by norm_num) (by norm_num)
    (by norm_num [registerIPConfig]) [0, 0, 0, 0]
    (by rw [show List.replicate 4 (0 : ℚ) = [0, 0, 0, 0] from rfl])

lemma matchRoute_length_eq (actual pattern : String)
    (h : matchRoute actual pattern = true) :
    (splitSlash actual.toList).length = (splitSlash pattern.toList).length := by
  by_contra hne
  simp only [matchRoute] at h
  rw [if_pos hne] at h
  exact Bool.false_ne_true h

/-- Claim C8: `getEndpointConfig` resolves a path by (1) exact key match
against the registry, then (2) the first non-`default` entry whose pattern
matches segment-wise — equal segment counts, and each pattern segment either
`:`-prefixed (matching any literal) or equal — then (3) the `default` entry;
in particular `/api/posts/:postId/upvote` matches `/api/posts/42/upvote` and
resolves it to the upvote limits, but does not match
`/api/posts/42/comments`, which falls back to `default`. -/
theorem route_resolution :
    (∀ path e, DEFAULT_RATE_LIMITS.find? (fun x => x.1 == path) = some e →
      getEndpointConfig path = e.2) ∧
    (∀ path e, DEFAULT_RATE_LIMITS.find? (fun x => x.1 == path) = none →
      DEFAULT_RATE_LIMITS.find?
        (fun x => x.1 != "default" && matchRoute path x.1) = some e →
      getEndpointConfig path = e.2) ∧
    (∀ path, DEFAULT_RATE_LIMITS.find? (fun x => x.1 == path) = none →
      DEFAULT_RATE_LIMITS.find?
        (fun x => x.1 != "default" && matchRoute path x.1) = none →
      getEndpointConfig path = defaultLimits) ∧
    (∀ actual pattern, matchRoute actual pattern = true →
      (splitSlash actual.toList).length = (splitSlash pattern.toList).length) ∧
    matchRoute "/api/posts/42/upvote" "/api/posts/:postId/upvote" = true ∧
    matchRoute "/api/posts/42/comments" "/api/posts/:postId/upvote" = false ∧
    getEndpointConfig "/api/posts/42/upvote" = ⟨some upvoteUserConfig, none⟩ ∧
    getEndpointConfig "/api/posts/42/comments" = defaultLimits := by
  refine ⟨?_, ?_, ?_, matchRoute_length_eq, by decide, by decide, by decide, by decide⟩
  · intro path e h
    simp only [getEndpointConfig, h]
  · intro path e h1 h2
    simp only [getEndpointConfig, h1, h2]
  · intro path h1 h2
    simp only [getEndpointConfig, h1, h2]

/-- Witness for C8: the exact-match branch resolves `/api/auth/login` to its
registry entry; the other concrete conjuncts are closed already. -/
theorem route_resolution_witness :
    getEndpointConfig "/api/auth/login" =
      (⟨none, some loginIPConfig⟩ : EndpointRateLimits) :=
  route_resolution.1 "/api/auth/login"
    ("/api/auth/login", ⟨none, some loginIPConfig⟩) (by decide)

/-- Claim C9 is violated by the code: in the fully-allowed run below the
middleware reports the pair of whichever check ran LAST, not the most
restrictive one.  An authenticated request to `/api/posts` (per-user limit
10, per-IP limit 20) on fresh buckets passes the user check with 9 remaining
and then the IP check with 19 remaining; lines 350-352 overwrite the headers
on every iteration, so the response carries `(limit 20, remaining 19)`
although the most restrictive pair across the executed checks is
`(limit 10, remaining 9)` — despite the comment on line 350 announcing the
strictest limit. -/
theorem headers_report_last_check :
    (runChecks 0 (buildChecks "/api/posts" (some "7") "1.2.3.4") [] none none).1 =
      ⟨true, some 20, some 19, none⟩ ∧
    ¬ ((runChecks 0 (buildChecks "/api/posts" (some "7") "1.2.3.4")
          [] none none).1.headerRemaining = some 9) := by
  have hne : ("user:" ++ "7" ++ ":" ++ "/api/posts" : String) ≠
      "ip:" ++ "1.2.3.4" ++ ":" ++ "/api/posts" := by decide
  have h : (runChecks 0 (buildChecks "/api/posts" (some "7") "1.2.3.4")
      [] none none).1 = ⟨true, some 20, some 19, none⟩ := by
    norm_num [runChecks, buildChecks, getEndpointConfig, DEFAULT_RATE_LIMITS,
      storeRead, storeWrite, consumeOk, luaScript, refilledTokens,
      postsUserConfig, postsIPConfig, hne]
  refine ⟨h, ?_⟩
  rw [h]
  simp
